import Mathlib

/-!
Verification development for the sqlfluff-service job/task orchestration core.

The definitions below are shallow embeddings of the Python source:
  * app/utils/uuid_utils.py          (prefixed-uuid generation and validation)
  * app/services/job_service.py      (JobService.calculate_job_status,
                                      JobService.update_job_status,
                                      JobService._is_valid_status_transition)
  * app/services/task_service.py     (TaskService.update_task_status,
                                      TaskService.retry_failed_tasks,
                                      TaskService._is_valid_status_transition)
  * app/celery_app/tasks.py          (task_lock, process_sql_file,
                                      update_job_status_based_on_tasks)
  * app/api/routes/tasks.py          (the POST /api/v1/tasks/retry route)
  * app/event_handlers/sql_check_handler.py and app/models/events.py
                                     (event creation and the worker handler)
  * app/services/sqlfluff_service.py (SQLFluffService._format_lint_result,
                                      SQLFluffService._get_violation_severity)

Database rows (LintingJob / LintingTask) are modelled as plain records; the
refreshed session state after an operation is the function's return value.
Non-deterministic run-time inputs (freshly generated uuid4 strings, clock
readings, the outcome of the third-party linter call) are passed in as
explicit arguments.
-/

set_option maxRecDepth 8192

/- ================== status enums (app/schemas/common.py) ================== -/

/-- TaskStatusEnum from app/schemas/common.py. -/
inductive TaskStatus
  | PENDING
  | IN_PROGRESS
  | SUCCESS
  | FAILURE
  deriving DecidableEq, Repr

/-- JobStatusEnum from app/schemas/common.py. -/
inductive JobStatus
  | ACCEPTED
  | PROCESSING
  | COMPLETED
  | PARTIALLY_COMPLETED
  | FAILED
  deriving DecidableEq, Repr

instance : BEq TaskStatus := ⟨fun a b => decide (a = b)⟩

instance : BEq JobStatus := ⟨fun a b => decide (a = b)⟩

/- ====================== generic string helpers ====================== -/

/-- Python substring containment (the `in` operator on str): true when
`needle` occurs contiguously inside `hay`, checked position by position. -/
def containsSeq (needle : List Char) : List Char → Bool
  | [] => needle.isEmpty
  | c :: rest => needle.isPrefixOf (c :: rest) || containsSeq needle rest

/-- `str_contains hay needle` models Python's `needle in hay` for strings. -/
def str_contains (hay needle : String) : Bool :=
  containsSeq needle.data hay.data

/- ============== identifier utilities (app/utils/uuid_utils.py) ============== -/

/-- The character class [0-9a-f] of UUID_PATTERN under re.IGNORECASE. -/
def isHexChar (c : Char) : Bool :=
  c.isDigit || (decide ('a' ≤ c) && decide (c ≤ 'f')) || (decide ('A' ≤ c) && decide (c ≤ 'F'))

/-- Consume exactly n hex characters from the front of the character list,
returning the remainder, or none when the shape does not fit. -/
def chompHex : Nat → List Char → Option (List Char)
  | 0, cs => some cs
  | _ + 1, [] => none
  | n + 1, c :: cs => if isHexChar c then chompHex n cs else none

/-- Consume one literal dash. -/
def chompDash : List Char → Option (List Char)
  | '-' :: cs => some cs
  | _ => none

/-- The 8-4-4-4-12 hex body shared by UUID_PATTERN and PREFIXED_UUID_PATTERN in
app/utils/uuid_utils.py, anchored at both ends. -/
def uuidBody (cs : List Char) : Bool :=
  match (chompHex 8 cs).bind chompDash |>.bind (chompHex 4) |>.bind chompDash
      |>.bind (chompHex 4) |>.bind chompDash |>.bind (chompHex 4) |>.bind chompDash
      |>.bind (chompHex 12) with
  | some [] => true
  | _ => false

/-- PREFIXED_UUID_PATTERN: ^[a-z]+-<uuid>$ with re.IGNORECASE.  The prefix
[a-z]+ cannot contain a dash, so the regex match is equivalent to taking the
maximal leading run of ASCII letters, requiring a dash, then the uuid body. -/
def prefixedUuidMatch (cs : List Char) : Bool :=
  let p := cs.takeWhile Char.isAlpha
  match cs.dropWhile Char.isAlpha with
  | '-' :: body => !p.isEmpty && uuidBody body
  | _ => false

/-- is_valid_prefixed_uuid from app/utils/uuid_utils.py: the pattern must
match and, when an expected prefix is supplied, the string must start with
it followed by a dash. -/
def is_valid_prefixed_uuid (s : String) (expected : Option String) : Bool :=
  if !prefixedUuidMatch s.data then false
  else
    match expected with
    | some p => (p ++ "-").data.isPrefixOf s.data
    | none => true

/-- is_valid_job_id from app/utils/uuid_utils.py. -/
def is_valid_job_id (s : String) : Bool :=
  is_valid_prefixed_uuid s (some "job")

/-- is_valid_task_id from app/utils/uuid_utils.py. -/
def is_valid_task_id (s : String) : Bool :=
  is_valid_prefixed_uuid s (some "task")

/-- is_valid_request_id from app/utils/uuid_utils.py. -/
def is_valid_request_id (s : String) : Bool :=
  is_valid_prefixed_uuid s (some "req")

/-- generate_job_id from app/utils/uuid_utils.py.  The argument u stands for
the fresh str(uuid.uuid4()) produced by generate_uuid; every such string
satisfies uuidBody u.data = true (lowercase 8-4-4-4-12 hex). -/
def generate_job_id (u : String) : String :=
  "job-" ++ u

/-- generate_task_id from app/utils/uuid_utils.py; u as in generate_job_id. -/
def generate_task_id (u : String) : String :=
  "task-" ++ u

/-- generate_request_id from app/utils/uuid_utils.py; u as in generate_job_id. -/
def generate_request_id (u : String) : String :=
  "req-" ++ u

/- ==================== task records and transitions ==================== -/

/-- A LintingTask row (app/models/database.py), restricted to the fields the
status-machine claims range over. -/
structure TaskRec where
  status : TaskStatus
  result_file_path : Option String
  error_message : Option String
  deriving DecidableEq, Repr

/-- TaskService._is_valid_status_transition's table (app/services/task_service.py,
lines 479-488), written as the list of permitted successor statuses. -/
def TaskService.valid_transitions : TaskStatus → List TaskStatus
  | .PENDING => [.IN_PROGRESS, .FAILURE]
  | .IN_PROGRESS => [.SUCCESS, .FAILURE]
  | .SUCCESS => []
  | .FAILURE => [.PENDING, .IN_PROGRESS]

/-- TaskService._is_valid_status_transition: new_status must be in the list
for current_status. -/
def TaskService.is_valid_status_transition (current new : TaskStatus) : Bool :=
  (TaskService.valid_transitions current).contains new

/-- The error-message marker the worker writes for files rejected by
_is_valid_sql_file (app/celery_app/tasks.py line 327). -/
def skip_marker : String := "跳过无效的SQL文件"

/-- The skipped-invalid-SQL-file test used by update_job_status_based_on_tasks
(app/celery_app/tasks.py lines 73-79): status FAILURE and the error message is
present and contains the marker. -/
def isSkippedTask (t : TaskRec) : Bool :=
  t.status == .FAILURE &&
    (match t.error_message with
     | some m => str_contains m skip_marker
     | none => false)

/- ==================== job status derivation ==================== -/

/-- JobService.calculate_job_status (app/services/job_service.py lines 246-291):
counts tasks by status and derives the job status; the skip marker plays no
role here. -/
def calculate_job_status (tasks : List TaskRec) : JobStatus :=
  let total_tasks := tasks.length
  let successful_tasks := (tasks.filter (fun t => t.status == .SUCCESS)).length
  let pending_tasks := (tasks.filter (fun t => t.status == .PENDING)).length
  let in_progress_tasks := (tasks.filter (fun t => t.status == .IN_PROGRESS)).length
  if total_tasks == 0 then .ACCEPTED
  else if pending_tasks > 0 || in_progress_tasks > 0 then .PROCESSING
  else if successful_tasks == total_tasks then .COMPLETED
  else if successful_tasks > 0 then .PARTIALLY_COMPLETED
  else .FAILED

/-- update_job_status_based_on_tasks (app/celery_app/tasks.py lines 60-108):
returns the status written to the job, or none when the function returns
early because the job has no tasks at all. -/
def update_job_status_based_on_tasks (tasks : List TaskRec) : Option JobStatus :=
  if tasks.isEmpty then none
  else
    let valid_tasks := tasks.filter (fun t => !isSkippedTask t)
    if valid_tasks.isEmpty then some .FAILED
    else if valid_tasks.all (fun t => t.status == .SUCCESS) then some .COMPLETED
    else if valid_tasks.any (fun t => t.status == .SUCCESS) then some .PARTIALLY_COMPLETED
    else if valid_tasks.all (fun t => t.status == .FAILURE) then some .FAILED
    else some .PROCESSING

/-- The aggregate-status derivation exactly as the specification's claim words
it (spec.md section 4.8): ACCEPTED on no tasks, FAILED when every task is an
ignored skip, otherwise COMPLETED / PARTIALLY_COMPLETED / FAILED / PROCESSING
over the effective tasks.  Used only to compare the two code derivations
against the claimed function. -/
def claimed_job_derivation (tasks : List TaskRec) : JobStatus :=
  if tasks.isEmpty then .ACCEPTED
  else
    let effective := tasks.filter (fun t => !isSkippedTask t)
    if effective.isEmpty then .FAILED
    else if effective.all (fun t => t.status == .SUCCESS) then .COMPLETED
    else if effective.any (fun t => t.status == .SUCCESS) then .PARTIALLY_COMPLETED
    else if effective.all (fun t => t.status == .FAILURE) then .FAILED
    else .PROCESSING

/- ==================== job record updates ==================== -/

/-- A LintingJob row restricted to the fields update_job_status touches. -/
structure JobRec where
  status : JobStatus
  error_message : Option String
  deriving DecidableEq, Repr

/-- JobService._is_valid_status_transition's table (app/services/job_service.py
lines 482-492). -/
def JobService.valid_transitions : JobStatus → List JobStatus
  | .ACCEPTED => [.PROCESSING, .FAILED]
  | .PROCESSING => [.COMPLETED, .PARTIALLY_COMPLETED, .FAILED]
  | .COMPLETED => []
  | .PARTIALLY_COMPLETED => []
  | .FAILED => [.PROCESSING]

/-- JobService._is_valid_status_transition. -/
def JobService.is_valid_status_transition (current new : JobStatus) : Bool :=
  (JobService.valid_transitions current).contains new

/-- The error raised by JobService.update_job_status on a disallowed edge
(ErrorCode.JOB_INVALID_STATUS). -/
inductive JobUpdateError
  | invalid_transition
  deriving DecidableEq, Repr

/-- JobService.update_job_status (app/services/job_service.py lines 214-244)
for an existing job row: validate the edge; on failure raise and roll back
(the returned row is the unchanged input); on success write the new status
and, when an error message is supplied, the message.  Returns the raised
error (if any) together with the stored row after the call. -/
def update_job_status (job : JobRec) (new_status : JobStatus)
    (error_message : Option String) : Option JobUpdateError × JobRec :=
  if !JobService.is_valid_status_transition job.status new_status then
    (some .invalid_transition, job)
  else
    let job1 : JobRec := { job with status := new_status }
    let job2 : JobRec :=
      match error_message with
      | some m => { job1 with error_message := some m }
      | none => job1
    (none, job2)

/-- The job transition table exactly as the claim lists it. -/
def claimed_job_transition_table : List (JobStatus × JobStatus) :=
  [(.ACCEPTED, .PROCESSING), (.ACCEPTED, .FAILED),
   (.PROCESSING, .COMPLETED), (.PROCESSING, .PARTIALLY_COMPLETED),
   (.PROCESSING, .FAILED), (.FAILED, .PROCESSING)]

/- ==================== task record operations ==================== -/

/-- The individual task-row writes performed by the system:
  * begin_processing, mark_skip, mark_success, mark_failure are the four
    unvalidated writes of process_sql_file (app/celery_app/tasks.py lines
    311, 330-331, 355-356, 380-381);
  * retry_reset is the reset in TaskService.retry_failed_tasks (lines 456-458),
    applied only to FAILURE tasks;
  * service_update is TaskService.update_task_status (lines 152-192), which
    validates the edge and otherwise leaves the row unchanged (exception and
    rollback). -/
inductive TaskOp
  | begin_processing
  | mark_skip (source_path : String)
  | mark_success (result_path : String)
  | mark_failure (msg : String)
  | retry_reset
  | service_update (new_status : TaskStatus) (result_path : Option String) (msg : Option String)
  deriving DecidableEq, Repr

/-- Effect of one operation on a task row.  Operations the code rejects
(retry of a non-FAILURE task, an invalid validated transition) leave the row
unchanged. -/
def apply_task_op (t : TaskRec) (op : TaskOp) : TaskRec :=
  match op with
  | .begin_processing => { t with status := .IN_PROGRESS }
  | .mark_skip p =>
      { t with status := .FAILURE, error_message := some (skip_marker ++ ": " ++ p) }
  | .mark_success rp =>
      { t with status := .SUCCESS, result_file_path := some rp }
  | .mark_failure m =>
      { t with status := .FAILURE, error_message := some m }
  | .retry_reset =>
      if t.status == .FAILURE then
        { t with status := .PENDING, error_message := none, result_file_path := none }
      else t
  | .service_update n rp m =>
      if TaskService.is_valid_status_transition t.status n then
        { status := n,
          result_file_path := match rp with | some r => some r | none => t.result_file_path,
          error_message := match m with | some e => some e | none => t.error_message }
      else t

/-- Run a sequence of operations on a task row. -/
def run_task_ops (t : TaskRec) (ops : List TaskOp) : TaskRec :=
  ops.foldl apply_task_op t

/-- A freshly created task (status PENDING, both artifact fields null). -/
def initial_task : TaskRec :=
  { status := .PENDING, result_file_path := none, error_message := none }

/-- The operations performed by the worker execution path and the retry
reset, excluding direct TaskService.update_task_status calls. -/
def isWorkerOrRetryOp : TaskOp → Bool
  | .service_update _ _ _ => false
  | _ => true

/- ==================== process_sql_file and the task lock ==================== -/

/-- The message of the exception task_lock raises when the Redis lock is
already held (app/celery_app/tasks.py line 52). -/
def lock_busy_message (lock_id : String) : String :=
  "Task " ++ lock_id ++ " is already being processed"

/-- process_sql_file acquires the lock under the id process_sql_<task_id>
(app/celery_app/tasks.py line 297). -/
def process_sql_lock_id (task_id : String) : String :=
  "process_sql_" ++ task_id

/-- Outcome of the body of process_sql_file once the lock is held. -/
inductive ExecResult
  | invalid_sql (source_path : String)
  | analyzed (result_path : String)
  | raised (msg : String)
  deriving DecidableEq, Repr

/-- One delivery of process_sql_file for a task (app/celery_app/tasks.py lines
287-397), as the net effect on the task row.  When the lock is free the body
runs: an invalid SQL file is marked FAILURE with the skip marker, a completed
analysis is marked SUCCESS with the result path, and any exception is caught
by the handler, which marks the task FAILURE with the exception text.  When
the lock is busy, task_lock raises, and the same exception handler marks the
task FAILURE with the lock-busy message.  No path validates the prior status. -/
def process_sql_file (task_id : String) (lock_available : Bool) (exec : ExecResult)
    (t : TaskRec) : TaskRec :=
  if lock_available then
    match exec with
    | .invalid_sql src =>
        { t with status := .FAILURE, error_message := some (skip_marker ++ ": " ++ src) }
    | .analyzed rp =>
        { t with status := .SUCCESS, result_file_path := some rp }
    | .raised msg =>
        { t with status := .FAILURE, error_message := some msg }
  else
    { t with status := .FAILURE,
             error_message := some (lock_busy_message (process_sql_lock_id task_id)) }

/- ==================== retry service and route ==================== -/

/-- The task store as a task_id-keyed association list: the row stored under
an id, if any. -/
def dbLookup : List (String × TaskRec) → String → Option TaskRec
  | [], _ => none
  | p :: rest, id => if p.fst = id then some p.snd else dbLookup rest id

/-- Overwrite the row stored under an id (ids are unique, so at most one row
changes). -/
def dbSet : List (String × TaskRec) → String → TaskRec → List (String × TaskRec)
  | [], _, _ => []
  | p :: rest, id, t =>
      if p.fst = id then (p.fst, t) :: dbSet rest id t else p :: dbSet rest id t

/-- Loop state of TaskService.retry_failed_tasks. -/
structure RetryState where
  db : List (String × TaskRec)
  submitted : List String
  failed : List String
  deriving DecidableEq, Repr

/-- One iteration of the loop in TaskService.retry_failed_tasks
(app/services/task_service.py lines 443-460): a missing task or a task whose
status is not FAILURE goes to the failed list; otherwise the row is reset to
PENDING with error_message and result_file_path cleared and the id is
recorded as successfully retried.  The function publishes no event. -/
def retry_step (st : RetryState) (task_id : String) : RetryState :=
  match dbLookup st.db task_id with
  | none => { st with failed := st.failed ++ [task_id] }
  | some t =>
      if t.status != .FAILURE then
        { st with failed := st.failed ++ [task_id] }
      else
        { st with
            db := dbSet st.db task_id
                    { t with status := .PENDING, error_message := none,
                             result_file_path := none },
            submitted := st.submitted ++ [task_id] }

/-- TaskService.retry_failed_tasks (app/services/task_service.py lines 429-475). -/
def retry_failed_tasks (db : List (String × TaskRec)) (task_ids : List String) :
    RetryState :=
  task_ids.foldl retry_step { db := db, submitted := [], failed := [] }

/-- Python sequence unpacking `a, b = s` for a string s: succeeds exactly when
the string has two characters. -/
def string_unpack2 (s : String) : Option (String × String) :=
  match s.data with
  | [a, b] => some (String.mk [a], String.mk [b])
  | _ => none

/-- Unpack every element; the route's loop raises ValueError at the first
element that is not exactly two characters long. -/
def unpackAll : List String → Option (List (String × String))
  | [] => some []
  | s :: rest =>
      match string_unpack2 s, unpackAll rest with
      | some p, some ps => some (p :: ps)
      | _, _ => none

/-- Response of the POST /api/v1/tasks/retry route. -/
inductive RetryRouteResult
  | ok (submitted : List String) (failed : List (String × String))
  | error (msg : String)
  deriving DecidableEq, Repr

/-- The retry route (app/api/routes/tasks.py lines 237-271): it calls
retry_failed_tasks, then iterates `for task_id, error in failed_submissions`.
The service returns plain id strings, so each entry is unpacked as a
two-character sequence; any longer id raises ValueError, which the handler
turns into an error response instead of a 200. -/
def retry_route (db : List (String × TaskRec)) (task_ids : List String) :
    RetryRouteResult :=
  let st := retry_failed_tasks db task_ids
  match unpackAll st.failed with
  | some pairs => .ok st.submitted pairs
  | none => .error "ValueError: too many values to unpack"

/- ==================== events and the worker handler ==================== -/

/-- An event record as constructed by BaseEvent.create (app/models/events.py
lines 6-22) and serialized by EventService.publish_event.  The payload is
flattened into the fields the claims range over. -/
structure EventRec where
  event_id : String
  event_type : String
  timestamp : String
  correlation_id : String
  payload_job_id : String
  payload_worker_id : String
  payload_file_name : Option String
  payload_batch_id : Option String
  payload_file_index : Option Nat
  payload_total_files : Option Nat
  payload_error_message : Option String
  deriving DecidableEq, Repr

/-- A SqlCheckRequested event as consumed by the handler. -/
structure SqlCheckRequest where
  correlation_id : String
  job_id : String
  file_name : String
  sql_file_path : String
  dialect : String
  batch_id : Option String
  file_index : Option Nat
  total_files : Option Nat
  deriving DecidableEq, Repr

/-- The keyword parameters accepted by SqlCheckCompletedEvent.create
(app/models/events.py lines 108-146), in declaration order. -/
def sql_check_completed_create_params : List String :=
  ["job_id", "worker_id", "result", "result_file_path", "duration",
   "file_name", "batch_id", "file_index", "total_files", "correlation_id"]

/-- The parameters of SqlCheckCompletedEvent.create that have no default and
therefore must be supplied. -/
def sql_check_completed_create_required : List String :=
  ["job_id", "worker_id", "result", "result_file_path", "duration"]

/-- The keyword arguments the handler passes at the call site
SqlCheckCompletedEvent.create(...) in
app/event_handlers/sql_check_handler.py lines 87-98. -/
def handler_completed_call_kwargs : List String :=
  ["job_id", "file_name", "status", "result", "result_file_path",
   "processing_duration", "worker_id", "batch_id", "file_index", "total_files"]

/-- Python keyword-argument binding: every supplied keyword must name a
declared parameter and every parameter without a default must be supplied,
otherwise the call raises TypeError. -/
def kwargs_call_ok (params required kwargs : List String) : Bool :=
  kwargs.all (fun k => params.contains k) && required.all (fun r => kwargs.contains r)

/-- SqlCheckFailedEvent.create (app/models/events.py lines 150-184) followed
by BaseEvent.create: the event id is a fresh uuid4 and, because the
correlation_id argument defaults to None, the correlation id is a second
fresh uuid4. -/
def sql_check_failed_event_create (job_id : String) (worker_id : String)
    (error_message : String) (file_name : Option String)
    (batch_id : Option String) (file_index : Option Nat) (total_files : Option Nat)
    (correlation_id : Option String)
    (fresh_event_id fresh_correlation_id now : String) : EventRec :=
  { event_id := fresh_event_id
    event_type := "SqlCheckFailed"
    timestamp := now
    correlation_id := correlation_id.getD fresh_correlation_id
    payload_job_id := job_id
    payload_worker_id := worker_id
    payload_file_name := file_name
    payload_batch_id := batch_id
    payload_file_index := file_index
    payload_total_files := total_files
    payload_error_message := some error_message }

/-- SqlCheckHandler.handle_sql_check_requested (app/event_handlers/
sql_check_handler.py lines 27-128), as the single result event it publishes
on sql_check_events.  file_exists and analysis_ok describe the run-time
outcome of the file read and the analyzer call.  On the success path the
code calls SqlCheckCompletedEvent.create with the keywords in
handler_completed_call_kwargs; that call binds only if kwargs_call_ok holds
for the factory's parameter list.  When it does not bind, the TypeError is
caught by the except block, which publishes a SqlCheckFailed event instead.
Neither call site passes the request's correlation_id (the local variable
read on line 41 is never used), so both events get a fresh correlation id. -/
def handle_sql_check_requested (req : SqlCheckRequest)
    (file_exists analysis_ok : Bool) (worker_id : String)
    (fresh_event_id fresh_correlation_id now : String) : EventRec :=
  if file_exists && analysis_ok &&
      kwargs_call_ok sql_check_completed_create_params
        sql_check_completed_create_required handler_completed_call_kwargs then
    { event_id := fresh_event_id
      event_type := "SqlCheckCompleted"
      timestamp := now
      correlation_id := (none : Option String).getD fresh_correlation_id
      payload_job_id := req.job_id
      payload_worker_id := worker_id
      payload_file_name := some req.file_name
      payload_batch_id := req.batch_id
      payload_file_index := req.file_index
      payload_total_files := req.total_files
      payload_error_message := none }
  else
    sql_check_failed_event_create req.job_id worker_id
      "PROCESSING_ERROR" (some req.file_name)
      req.batch_id req.file_index req.total_files
      none fresh_event_id fresh_correlation_id now

/- ==================== analyzer result formatting ==================== -/

/-- The rule attached to a SQLLintError; code / name are absent when the rule
object lacks the attribute. -/
structure RuleInfo where
  code : Option String
  name : Option String
  deriving DecidableEq, Repr

/-- A SQLLintError as consumed by SQLFluffService._format_lint_result; rule
is none when the violation has no rule object (or it is falsy). -/
structure LintErrorRec where
  line_no : Nat
  line_pos : Nat
  description : String
  rule : Option RuleInfo
  fixable : Bool
  deriving DecidableEq, Repr

/-- The critical_rules list of SQLFluffService._get_violation_severity
(app/services/sqlfluff_service.py line 532). -/
def critical_rules : List String :=
  ["L001", "L002", "L003", "L008", "L009"]

/-- SQLFluffService._get_violation_severity (lines 524-540): critical exactly
when the violation carries a rule whose code is in critical_rules; every
failure to read the attributes falls back to warning. -/
def get_violation_severity (v : LintErrorRec) : String :=
  match v.rule with
  | some r =>
      match r.code with
      | some c => if critical_rules.contains c then "critical" else "warning"
      | none => "warning"
  | none => "warning"

/-- One formatted violation entry (lines 414-436). -/
structure ViolationDict where
  line_no : Nat
  line_pos : Nat
  code : String
  description : String
  rule : String
  severity : String
  fixable : Bool
  deriving DecidableEq, Repr

/-- The violation_dict built for each lint error (lines 414-436): rule code
and name default to "UNKNOWN" / "unknown" when absent. -/
def violation_dict (v : LintErrorRec) : ViolationDict :=
  { line_no := v.line_no
    line_pos := v.line_pos
    code := match v.rule with | some r => r.code.getD "UNKNOWN" | none => "UNKNOWN"
    description := v.description
    rule := match v.rule with | some r => r.name.getD "unknown" | none => "unknown"
    severity := get_violation_severity v
    fixable := v.fixable }

/-- The summary block of the formatted result (lines 447-464). -/
structure ResultSummary where
  total_violations : Nat
  critical_violations : Nat
  warning_violations : Nat
  file_passed : Bool
  success_rate : Nat
  deriving DecidableEq, Repr

/-- The normal (non-error) path of SQLFluffService._format_lint_result
(lines 383-487), restricted to violations and summary: each lint error
produces one violation entry and increments the critical counter when its
severity is "critical" and the warning counter otherwise; the summary is
computed from the violation count. -/
def format_lint_result (lint_errors : List LintErrorRec) :
    List ViolationDict × ResultSummary :=
  let violations := lint_errors.map violation_dict
  let critical_count := (violations.filter (fun v => v.severity == "critical")).length
  let warning_count := (violations.filter (fun v => !(v.severity == "critical"))).length
  let total_violations := violations.length
  (violations,
   { total_violations := total_violations
     critical_violations := critical_count
     warning_violations := warning_count
     file_passed := total_violations == 0
     success_rate := if total_violations > 0 then 0 else 100 })

/- ==================== concrete example inputs ==================== -/

/-- A skipped-invalid-file task as written by process_sql_file. -/
def c1_skip_task : TaskRec :=
  { status := .FAILURE, result_file_path := none,
    error_message := some ("跳过无效的SQL文件: jobs/job-1/._hidden.sql") }

/-- A successfully analyzed task. -/
def c1_success_task : TaskRec :=
  { status := .SUCCESS, result_file_path := some "results/job-1/task-1_result.json",
    error_message := none }

/-- A job with one ignored skip and one successful task. -/
def c1_example_tasks : List TaskRec := [c1_skip_task, c1_success_task]

/-- A worker trace: first delivery fails in the analyzer, the Celery retry
then succeeds. -/
def c4_example_ops : List TaskOp :=
  [.begin_processing, .mark_failure "analyzer exploded",
   .begin_processing, .mark_success "results/job-1/task-1_result.json"]

/-- A database holding one FAILURE task under the id task-A. -/
def c6_example_db : List (String × TaskRec) :=
  [("task-A", { status := .FAILURE, result_file_path := none,
                error_message := some "boom" })]

/-- A retry request naming the failed task and a non-existent id. -/
def c6_example_ids : List String := ["task-A", "task-Z"]

/-- A SqlCheckRequested event with an explicit correlation id. -/
def c5_example_request : SqlCheckRequest :=
  { correlation_id := "corr-req", job_id := "job-1", file_name := "a.sql",
    sql_file_path := "jobs/job-1/a.sql", dialect := "ansi",
    batch_id := none, file_index := none, total_files := none }

/-- The row written by the retry reset. -/
def reset_row : TaskRec :=
  { status := .PENDING, result_file_path := none, error_message := none }

/-- The invariant maintained by the retry loop relative to the initial
database db0: every id reported as submitted now stores the reset row and
was a FAILURE row initially, and rows of ids not (yet) submitted are
untouched. -/
def RetryInvariant (db0 : List (String × TaskRec)) (st : RetryState) : Prop :=
  (∀ id ∈ st.submitted,
      dbLookup st.db id = some reset_row ∧
      ∃ t, dbLookup db0 id = some t ∧ t.status = .FAILURE) ∧
  (∀ id, id ∉ st.submitted → dbLookup st.db id = dbLookup db0 id)

/- ==================== helper lemmas ==================== -/

theorem length_filter_add_length_filter_not {α : Type} (l : List α) (p : α → Bool) :
    (l.filter p).length + (l.filter (fun x => !(p x))).length = l.length := by
  induction l with
  | nil => rfl
  | cons a t ih => cases h : p a <;> simp [List.filter_cons, h] <;> omega

theorem violation_severity_matches (v : LintErrorRec) :
    ((violation_dict v).severity == "critical") =
      critical_rules.contains (violation_dict v).code := by
  rcases v with ⟨ln, lp, d, r, f⟩
  rcases r with _ | ⟨c, n⟩
  · show ("warning" == "critical") = critical_rules.contains "UNKNOWN"
    decide
  · rcases c with _ | c
    · show ("warning" == "critical") = critical_rules.contains "UNKNOWN"
      decide
    · show ((if critical_rules.contains c then "critical" else "warning") == "critical") =
        critical_rules.contains c
      cases hc : critical_rules.contains c <;> simp [hc]

theorem dbLookup_dbSet_self {db : List (String × TaskRec)} {id : String} {t r : TaskRec}
    (h : dbLookup db id = some t) : dbLookup (dbSet db id r) id = some r := by
  induction db with
  | nil => simp [dbLookup] at h
  | cons p rest ih =>
    by_cases hp : p.fst = id
    · simp [dbLookup, dbSet, hp]
    · have h2 : dbLookup rest id = some t := by
        simpa [dbLookup, hp] using h
      simpa [dbLookup, dbSet, hp] using ih h2

theorem dbSet_cons_eq {p : String × TaskRec} {rest : List (String × TaskRec)}
    {id : String} {r : TaskRec} (hp : p.fst = id) :
    dbSet (p :: rest) id r = (p.fst, r) :: dbSet rest id r := by
  simp [dbSet, hp]

theorem dbSet_cons_ne {p : String × TaskRec} {rest : List (String × TaskRec)}
    {id : String} {r : TaskRec} (hp : p.fst ≠ id) :
    dbSet (p :: rest) id r = p :: dbSet rest id r := by
  simp [dbSet, hp]

theorem dbLookup_dbSet_ne {db : List (String × TaskRec)} {id id2 : String} {r : TaskRec}
    (h : id2 ≠ id) : dbLookup (dbSet db id r) id2 = dbLookup db id2 := by
  induction db with
  | nil => rfl
  | cons p rest ih =>
    by_cases hp : p.fst = id
    · have hne2 : p.fst ≠ id2 := by
        rw [hp]
        exact fun he => h he.symm
      rw [dbSet_cons_eq hp]
      simp [dbLookup, hne2, ih]
    · rw [dbSet_cons_ne hp]
      by_cases hq : p.fst = id2
      · simp [dbLookup, hq]
      · simp [dbLookup, hq, ih]

theorem retry_step_preserves_invariant (db0 : List (String × TaskRec))
    (st : RetryState) (id : String) (h : RetryInvariant db0 st) :
    RetryInvariant db0 (retry_step st id) := by
  obtain ⟨h1, h2⟩ := h
  unfold retry_step
  cases hl : dbLookup st.db id with
  | none => exact ⟨h1, h2⟩
  | some t =>
    by_cases hs : t.status != .FAILURE
    · simp only [hs, if_true]
      exact ⟨h1, h2⟩
    · simp only [hs, if_false, Bool.false_eq_true]
      have hfail : t.status = .FAILURE := by
        revert hs
        cases t.status <;> simp
      have hnotmem : id ∉ st.submitted := by
        intro hmem
        have hrow := (h1 id hmem).1
        rw [hl] at hrow
        have ht : t = reset_row := by injection hrow
        rw [ht] at hfail
        simp [reset_row] at hfail
      constructor
      · intro id2 hmem2
        rcases List.mem_append.mp hmem2 with hold | hnew
        · have hne : id2 ≠ id := fun he => hnotmem (he ▸ hold)
          refine ⟨?_, (h1 id2 hold).2⟩
          rw [dbLookup_dbSet_ne hne]
          exact (h1 id2 hold).1
        · have he : id2 = id := by simpa using hnew
          subst he
          constructor
          · have : dbLookup (dbSet st.db id2 reset_row) id2 = some reset_row :=
              dbLookup_dbSet_self hl
            simpa [reset_row] using this
          · refine ⟨t, ?_, hfail⟩
            rw [← h2 id2 hnotmem]
            exact hl
      · intro id2 hnm
        have hne : id2 ≠ id := by
          intro he
          exact hnm (he ▸ List.mem_append.mpr (Or.inr (by simp)))
        have hnm2 : id2 ∉ st.submitted := fun hmem => hnm (List.mem_append.mpr (Or.inl hmem))
        rw [dbLookup_dbSet_ne hne]
        exact h2 id2 hnm2

theorem retry_fold_invariant (db0 : List (String × TaskRec)) (ids : List String)
    (st : RetryState) (h : RetryInvariant db0 st) :
    RetryInvariant db0 (ids.foldl retry_step st) := by
  induction ids generalizing st with
  | nil => exact h
  | cons i rest ih => exact ih _ (retry_step_preserves_invariant db0 st i h)

theorem retry_step_count (st : RetryState) (id : String) :
    (retry_step st id).submitted.length + (retry_step st id).failed.length =
      st.submitted.length + st.failed.length + 1 := by
  unfold retry_step
  cases hl : dbLookup st.db id with
  | none =>
    simp
    omega
  | some t =>
    by_cases hs : t.status != .FAILURE <;> simp [hs] <;> omega

theorem retry_fold_count (ids : List String) (st : RetryState) :
    (ids.foldl retry_step st).submitted.length + (ids.foldl retry_step st).failed.length =
      st.submitted.length + st.failed.length + ids.length := by
  induction ids generalizing st with
  | nil => simp
  | cons i rest ih =>
    simp only [List.foldl_cons, List.length_cons]
    rw [ih, retry_step_count]
    omega

theorem string_unpack2_none_of_length {s : String} (h : s.data.length ≠ 2) :
    string_unpack2 s = none := by
  obtain ⟨l⟩ := s
  rcases l with _ | ⟨a, _ | ⟨b, _ | ⟨c, l⟩⟩⟩
  · rfl
  · rfl
  · exact absurd rfl h
  · rfl

theorem unpackAll_none_of_mem {l : List String} {s : String} (hs : s ∈ l)
    (h2 : string_unpack2 s = none) : unpackAll l = none := by
  induction l with
  | nil => cases hs
  | cons a rest ih =>
    rcases List.mem_cons.mp hs with he | hm
    · subst he
      simp [unpackAll, h2]
    · cases ha : string_unpack2 a <;> simp [unpackAll, ha, ih hm]

theorem c4_step_invariant (t : TaskRec) (op : TaskOp)
    (hop : isWorkerOrRetryOp op = true)
    (hinv : t.status = .SUCCESS → t.result_file_path ≠ none) :
    (apply_task_op t op).status = .SUCCESS →
      (apply_task_op t op).result_file_path ≠ none := by
  cases op with
  | begin_processing => simp [apply_task_op]
  | mark_skip p => simp [apply_task_op]
  | mark_success rp => simp [apply_task_op]
  | mark_failure m => simp [apply_task_op]
  | retry_reset =>
    by_cases hf : t.status == .FAILURE
    · simp [apply_task_op, hf]
    · simp only [apply_task_op, hf, Bool.false_eq_true, if_false]
      exact hinv
  | service_update n rp m => simp [isWorkerOrRetryOp] at hop

theorem c4_run_invariant (ops : List TaskOp) (t : TaskRec)
    (hops : ops.all isWorkerOrRetryOp = true)
    (hinv : t.status = .SUCCESS → t.result_file_path ≠ none) :
    (run_task_ops t ops).status = .SUCCESS →
      (run_task_ops t ops).result_file_path ≠ none := by
  induction ops generalizing t with
  | nil => exact hinv
  | cons op rest ih =>
    simp only [List.all_cons, Bool.and_eq_true] at hops
    exact ih (apply_task_op t op) hops.2 (c4_step_invariant t op hops.1 hinv)

/- ==================== claim theorems ==================== -/

/-- C1 counterexample: for a job with one ignored-skip task and one SUCCESS
task, the claimed partition-based derivation (and the worker-side
update_job_status_based_on_tasks) yields COMPLETED, while
JobService.calculate_job_status yields PARTIALLY_COMPLETED — the two places
do not compute the same function. -/
theorem c1_two_derivations_differ :
    calculate_job_status c1_example_tasks = .PARTIALLY_COMPLETED ∧
    update_job_status_based_on_tasks c1_example_tasks = some .COMPLETED ∧
    claimed_job_derivation c1_example_tasks = .COMPLETED ∧
    calculate_job_status c1_example_tasks ≠ claimed_job_derivation c1_example_tasks :=
  ⟨by decide, by decide, by decide, by decide⟩

/-- C1 amended: the worker-side update_job_status_based_on_tasks computes
exactly the claimed partition-based derivation on every job that has at
least one task (on an empty task list it performs no update instead of
deriving ACCEPTED); JobService.calculate_job_status computes a different
function that ignores the skip partition. -/
theorem c1_worker_matches_claimed (tasks : List TaskRec) (h : tasks ≠ []) :
    update_job_status_based_on_tasks tasks = some (claimed_job_derivation tasks) := by
  cases tasks with
  | nil => exact absurd rfl h
  | cons a l =>
    simp only [update_job_status_based_on_tasks, claimed_job_derivation,
      List.isEmpty_cons, Bool.false_eq_true, if_false, apply_ite Option.some]

/-- Witness for c1_worker_matches_claimed at the concrete example job. -/
theorem c1_worker_matches_claimed_witness :
    c1_example_tasks ≠ [] ∧
    update_job_status_based_on_tasks c1_example_tasks =
      some (claimed_job_derivation c1_example_tasks) :=
  ⟨by decide, c1_worker_matches_claimed c1_example_tasks (by decide)⟩

/-- C2: the keyword arguments the handler passes to
SqlCheckCompletedEvent.create do not bind to the factory's parameters
(status and processing_duration are not parameters, and the required
duration is missing), so on every request whose file exists and whose
analysis succeeds the handler publishes a SqlCheckFailed event instead of
the claimed SqlCheckCompleted event. -/
theorem c2_completed_event_never_published :
    kwargs_call_ok sql_check_completed_create_params
      sql_check_completed_create_required handler_completed_call_kwargs = false ∧
    (∀ (req : SqlCheckRequest) (worker_id fresh_event_id fresh_correlation_id now : String),
      (handle_sql_check_requested req true true worker_id
          fresh_event_id fresh_correlation_id now).event_type = "SqlCheckFailed") :=
  ⟨by decide, fun _ _ _ _ _ => rfl⟩

/-- C3 counterexample: TaskService's transition validator accepts the edge
FAILURE → IN_PROGRESS, which the claim says is never accepted; moreover the
worker's unvalidated IN_PROGRESS write moves even a SUCCESS task, so SUCCESS
is not absorbing across all operations. -/
theorem c3_failure_to_in_progress_accepted :
    TaskService.is_valid_status_transition .FAILURE .IN_PROGRESS = true ∧
    (apply_task_op
        { status := .SUCCESS,
          result_file_path := some "results/job-1/task-1_result.json",
          error_message := none }
        .begin_processing).status = .IN_PROGRESS :=
  ⟨by decide, by decide⟩

/-- C3 amended: TaskService._is_valid_status_transition accepts exactly the
edges PENDING→IN_PROGRESS, PENDING→FAILURE, IN_PROGRESS→SUCCESS,
IN_PROGRESS→FAILURE, FAILURE→PENDING and also FAILURE→IN_PROGRESS; it
accepts no transition out of SUCCESS.  Only TaskService.update_task_status
consults this validator — process_sql_file writes task statuses without it. -/
theorem c3_task_transition_characterization (c n : TaskStatus) :
    TaskService.is_valid_status_transition c n = true ↔
      ((c = .PENDING ∧ n = .IN_PROGRESS) ∨ (c = .PENDING ∧ n = .FAILURE) ∨
       (c = .IN_PROGRESS ∧ n = .SUCCESS) ∨ (c = .IN_PROGRESS ∧ n = .FAILURE) ∨
       (c = .FAILURE ∧ n = .PENDING) ∨ (c = .FAILURE ∧ n = .IN_PROGRESS)) := by
  cases c <;> cases n <;> decide

/-- C4 counterexample: a task whose first execution fails and whose Celery
retry then succeeds ends with status SUCCESS, a result file path, and the
stale error message of the failed attempt still set — refuting the claimed
equivalence SUCCESS ⇔ (result_file_path ≠ null ∧ error_message = null). -/
theorem c4_success_with_stale_error :
    (run_task_ops initial_task c4_example_ops).status = .SUCCESS ∧
    (run_task_ops initial_task c4_example_ops).result_file_path ≠ none ∧
    (run_task_ops initial_task c4_example_ops).error_message ≠ none ∧
    ¬ ((run_task_ops initial_task c4_example_ops).status = .SUCCESS ↔
        ((run_task_ops initial_task c4_example_ops).result_file_path ≠ none ∧
         (run_task_ops initial_task c4_example_ops).error_message = none)) :=
  ⟨by decide, by decide, by decide, by decide⟩

/-- C4 amended: over every sequence of worker executions (process_sql_file
writes) and retry resets starting from a fresh PENDING task, status SUCCESS
implies result_file_path is non-null.  The error_message conjunct of the
claim fails (c4_success_with_stale_error), and direct update_task_status
calls can break even this implication since they do not require a result
path on a SUCCESS transition. -/
theorem c4_success_implies_result_path (ops : List TaskOp)
    (hops : ops.all isWorkerOrRetryOp = true)
    (hsucc : (run_task_ops initial_task ops).status = .SUCCESS) :
    (run_task_ops initial_task ops).result_file_path ≠ none := by
  refine c4_run_invariant ops initial_task hops ?_ hsucc
  intro hs
  simp [initial_task] at hs

/-- Witness for c4_success_implies_result_path on a concrete worker trace. -/
theorem c4_success_implies_result_path_witness :
    ([TaskOp.begin_processing,
      TaskOp.mark_success "results/job-9/task-9_result.json"].all isWorkerOrRetryOp = true) ∧
    (run_task_ops initial_task
      [TaskOp.begin_processing,
       TaskOp.mark_success "results/job-9/task-9_result.json"]).status = .SUCCESS ∧
    (run_task_ops initial_task
      [TaskOp.begin_processing,
       TaskOp.mark_success "results/job-9/task-9_result.json"]).result_file_path ≠ none :=
  ⟨by decide, by decide,
   c4_success_implies_result_path
     [TaskOp.begin_processing, TaskOp.mark_success "results/job-9/task-9_result.json"]
     (by decide) (by decide)⟩

/-- C5: both result-event call sites omit the correlation_id argument (the
variable read from the request on line 41 of the handler is never used), so
BaseEvent.create falls back to a fresh uuid4: every published result event
carries the fresh id, not the request's correlation id. -/
theorem c5_result_correlation_id_fresh :
    (∀ (req : SqlCheckRequest) (file_exists analysis_ok : Bool)
        (worker_id fresh_event_id fresh_correlation_id now : String),
      (handle_sql_check_requested req file_exists analysis_ok worker_id
          fresh_event_id fresh_correlation_id now).correlation_id = fresh_correlation_id) ∧
    (handle_sql_check_requested c5_example_request true true
        "worker-host-1" "evt-fresh" "corr-fresh" "now").correlation_id ≠
      c5_example_request.correlation_id := by
  constructor
  · intro req fe ao wid eid cid now
    cases fe <;> cases ao <;> rfl
  · decide

/-- C6 counterexample: for a store holding the FAILURE task task-A and the
retry request [task-A, task-Z], the service accepts task-A and rejects
task-Z, but the route then unpacks the rejected id string as a
(task_id, error) pair, raises ValueError, and returns an error response
instead of the claimed 200 with both lists. -/
theorem c6_route_errors_on_rejected :
    (retry_failed_tasks c6_example_db c6_example_ids).submitted = ["task-A"] ∧
    (retry_failed_tasks c6_example_db c6_example_ids).failed = ["task-Z"] ∧
    retry_route c6_example_db c6_example_ids =
      .error "ValueError: too many values to unpack" :=
  ⟨by decide, by decide, by decide⟩

/-- C6 amended: retry_failed_tasks resets every accepted id to PENDING with
result_file_path and error_message cleared and only accepts ids stored as
FAILURE; every id ends in exactly one of the two lists; and the route
returns 200 with both lists only when the rejected list is empty — any
rejected id longer than two characters makes the route raise ValueError.
No SqlCheckRequested event is published anywhere in this path. -/
theorem c6_retry_semantics (db : List (String × TaskRec)) (ids : List String) :
    (∀ id ∈ (retry_failed_tasks db ids).submitted,
        dbLookup (retry_failed_tasks db ids).db id = some reset_row ∧
        ∃ t, dbLookup db id = some t ∧ t.status = .FAILURE) ∧
    ((retry_failed_tasks db ids).submitted.length +
        (retry_failed_tasks db ids).failed.length = ids.length) ∧
    ((retry_failed_tasks db ids).failed = [] →
        retry_route db ids = .ok (retry_failed_tasks db ids).submitted []) ∧
    (∀ id ∈ (retry_failed_tasks db ids).failed, id.data.length ≠ 2 →
        retry_route db ids = .error "ValueError: too many values to unpack") := by
  have hinv : RetryInvariant db (retry_failed_tasks db ids) := by
    apply retry_fold_invariant
    constructor
    · intro id hmem
      cases hmem
    · intro id _
      rfl
  refine ⟨hinv.1, ?_, ?_, ?_⟩
  · have := retry_fold_count ids { db := db, submitted := [], failed := [] }
    simpa [retry_failed_tasks] using this
  · intro hemp
    unfold retry_route
    simp only [hemp, unpackAll]
  · intro id hmem hlen
    unfold retry_route
    simp only [unpackAll_none_of_mem hmem (string_unpack2_none_of_length hlen)]

/-- Witness for c6_retry_semantics at the concrete example store. -/
theorem c6_retry_semantics_witness :
    ("task-A" ∈ (retry_failed_tasks c6_example_db c6_example_ids).submitted) ∧
    (dbLookup (retry_failed_tasks c6_example_db c6_example_ids).db "task-A" =
        some reset_row) ∧
    ("task-Z" ∈ (retry_failed_tasks c6_example_db c6_example_ids).failed) ∧
    ("task-Z".data.length ≠ 2) ∧
    retry_route c6_example_db c6_example_ids =
      .error "ValueError: too many values to unpack" :=
  ⟨by decide, ((c6_retry_semantics c6_example_db c6_example_ids).1 "task-A" (by decide)).1,
   by decide, by decide,
   (c6_retry_semantics c6_example_db c6_example_ids).2.2.2 "task-Z" (by decide) (by decide)⟩

/-- C7 counterexample: a worker that finds the task lock busy does not drop
the duplicate silently — process_sql_file's exception handler overwrites the
task row with status FAILURE and the lock-busy message, so the record is
changed by the losing worker. -/
theorem c7_losing_worker_modifies_task :
    process_sql_file "task-X" false (.analyzed "results/job-1/task-X_result.json")
        { status := .IN_PROGRESS, result_file_path := none, error_message := none } ≠
      { status := .IN_PROGRESS, result_file_path := none, error_message := none } ∧
    (process_sql_file "task-X" false (.analyzed "results/job-1/task-X_result.json")
        { status := .IN_PROGRESS, result_file_path := none, error_message := none }).status =
      .FAILURE :=
  ⟨by decide, by decide⟩

/-- C7 amended: when the lock is busy, task_lock raises and process_sql_file's
generic exception handler sets the task row to FAILURE with the message
"Task process_sql_<task_id> is already being processed" (and schedules a
Celery retry), whatever the body would have done — the duplicate delivery is
not dropped without modifying the record, so a duplicated envelope can cause
a second terminal (FAILURE) write. -/
theorem c7_lock_busy_marks_failure (task_id : String) (exec : ExecResult) (t : TaskRec) :
    process_sql_file task_id false exec t =
      { t with status := .FAILURE,
               error_message := some (lock_busy_message (process_sql_lock_id task_id)) } :=
  rfl

/-- C8: for an existing job row, update_job_status raises the
invalid-transition error exactly when (current status, requested status) is
not an edge of the claimed transition table, and on that failure the stored
row is unchanged. -/
theorem c8_update_job_status_validates (job : JobRec) (new_status : JobStatus)
    (error_message : Option String) :
    ((update_job_status job new_status error_message).fst = some .invalid_transition ↔
        (job.status, new_status) ∉ claimed_job_transition_table) ∧
    ((job.status, new_status) ∉ claimed_job_transition_table →
        (update_job_status job new_status error_message).snd = job) := by
  obtain ⟨s, e⟩ := job
  cases s <;> cases new_status <;>
    simp [update_job_status, JobService.is_valid_status_transition,
      JobService.valid_transitions, claimed_job_transition_table]

/-- Witness for c8_update_job_status_validates: COMPLETED → PROCESSING is
rejected and leaves the row unchanged. -/
theorem c8_update_job_status_validates_witness :
    ((JobStatus.COMPLETED, JobStatus.PROCESSING) ∉ claimed_job_transition_table) ∧
    (update_job_status { status := .COMPLETED, error_message := none }
        .PROCESSING none).snd = { status := .COMPLETED, error_message := none } :=
  ⟨by decide,
   (c8_update_job_status_validates { status := .COMPLETED, error_message := none }
     .PROCESSING none).2 (by decide)⟩

/-- C9: every identifier produced by generate_job_id / generate_task_id /
generate_request_id from a fresh uuid4 string (which always has the
lowercase 8-4-4-4-12 hex shape captured by uuidBody) is accepted by the
corresponding validator. -/
theorem c9_generated_ids_validate (u : String) (h : uuidBody u.data = true) :
    is_valid_job_id (generate_job_id u) = true ∧
    is_valid_task_id (generate_task_id u) = true ∧
    is_valid_request_id (generate_request_id u) = true := by
  obtain ⟨d⟩ := u
  refine ⟨?_, ?_, ?_⟩
  · show (if !prefixedUuidMatch ('j' :: 'o' :: 'b' :: '-' :: d) then false
          else ("job" ++ "-").data.isPrefixOf ('j' :: 'o' :: 'b' :: '-' :: d)) = true
    rw [show prefixedUuidMatch ('j' :: 'o' :: 'b' :: '-' :: d) = uuidBody d from rfl]
    rw [h]
    simp [List.isPrefixOf]
  · show (if !prefixedUuidMatch ('t' :: 'a' :: 's' :: 'k' :: '-' :: d) then false
          else ("task" ++ "-").data.isPrefixOf ('t' :: 'a' :: 's' :: 'k' :: '-' :: d)) = true
    rw [show prefixedUuidMatch ('t' :: 'a' :: 's' :: 'k' :: '-' :: d) = uuidBody d from rfl]
    rw [h]
    simp [List.isPrefixOf]
  · show (if !prefixedUuidMatch ('r' :: 'e' :: 'q' :: '-' :: d) then false
          else ("req" ++ "-").data.isPrefixOf ('r' :: 'e' :: 'q' :: '-' :: d)) = true
    rw [show prefixedUuidMatch ('r' :: 'e' :: 'q' :: '-' :: d) = uuidBody d from rfl]
    rw [h]
    simp [List.isPrefixOf]

/-- Witness for c9_generated_ids_validate at a concrete uuid4 string. -/
theorem c9_generated_ids_validate_witness :
    uuidBody "d8b8a7e0-4f7f-4f7b-8f1e-8e6a1e8e6a1e".data = true ∧
    (is_valid_job_id (generate_job_id "d8b8a7e0-4f7f-4f7b-8f1e-8e6a1e8e6a1e") = true ∧
     is_valid_task_id (generate_task_id "d8b8a7e0-4f7f-4f7b-8f1e-8e6a1e8e6a1e") = true ∧
     is_valid_request_id (generate_request_id "d8b8a7e0-4f7f-4f7b-8f1e-8e6a1e8e6a1e") = true) :=
  ⟨by decide, c9_generated_ids_validate "d8b8a7e0-4f7f-4f7b-8f1e-8e6a1e8e6a1e" (by decide)⟩

/-- C10: on the normal formatting path, total_violations equals the length
of the violations list and the sum of the critical and warning counters;
file_passed holds exactly when there are no violations; success_rate is 100
when the file passed and 0 otherwise; and a violation's severity is
"critical" exactly when its code is one of the critical rule codes. -/
theorem c10_format_result_invariants (lint_errors : List LintErrorRec) :
    ((format_lint_result lint_errors).snd.total_violations =
        (format_lint_result lint_errors).fst.length) ∧
    ((format_lint_result lint_errors).snd.total_violations =
        (format_lint_result lint_errors).snd.critical_violations +
          (format_lint_result lint_errors).snd.warning_violations) ∧
    (((format_lint_result lint_errors).snd.file_passed = true) ↔
        (format_lint_result lint_errors).snd.total_violations = 0) ∧
    ((format_lint_result lint_errors).snd.success_rate =
        if (format_lint_result lint_errors).snd.file_passed = true then 100 else 0) ∧
    ((format_lint_result lint_errors).fst.all
        (fun v => (v.severity == "critical") == critical_rules.contains v.code) = true) := by
  refine ⟨rfl, ?_, ?_, ?_, ?_⟩
  · show (lint_errors.map violation_dict).length =
      ((lint_errors.map violation_dict).filter (fun v => v.severity == "critical")).length +
        ((lint_errors.map violation_dict).filter (fun v => !(v.severity == "critical"))).length
    exact (length_filter_add_length_filter_not (lint_errors.map violation_dict)
      (fun v => v.severity == "critical")).symm
  · show (((lint_errors.map violation_dict).length == 0) = true) ↔
      (lint_errors.map violation_dict).length = 0
    simp
  · show (if (lint_errors.map violation_dict).length > 0 then 0 else 100) =
      if (((lint_errors.map violation_dict).length == 0) = true) then 100 else 0
    cases hlen : (lint_errors.map violation_dict).length with
    | zero => rfl
    | succ n => simp
  · rw [List.all_eq_true]
    intro v hv
    obtain ⟨e, he, heq⟩ := List.mem_map.mp hv
    subst heq
    simp [violation_severity_matches e]
